import Mathlib

/-!
# Verification of the provider-directory pipeline core

Shallow embedding of the validation, QA and directory agents of the repository
(`agents/validation_agent.py`, `agents/qa_agent.py`, `agents/directory_agent.py`).

Modelling conventions:
* Python floats are modelled as exact rationals (`ℚ`); `round(x, 3)` is
  modelled as round-half-to-even at 3 decimals, the rounding mode of Python.
* A JSON field that may be absent or `null` is an `Option`; `dict.get k d`
  becomes `Option.getD`, and Python truthiness of a string is `truthy`.
* External collaborators (the NPI registry, the Google services and the
  `phonenumbers` library) are parameters of the functions that call them,
  returning `Option` results, matching their "structured data or None"
  boundary contract.
-/

set_option maxRecDepth 100000

namespace EY

/-- Source model of the Python builtin `round` to an integer: round half to even. -/
def roundHalfEven (q : ℚ) : ℤ :=
  if q - q.floor < 1/2 then q.floor
  else if 1/2 < q - q.floor then q.floor + 1
  else if q.floor % 2 = 0 then q.floor else q.floor + 1

/-- Source model of the Python builtin `round(x, 3)`. -/
def round3 (q : ℚ) : ℚ := (roundHalfEven (q * 1000) : ℚ) / 1000

/-- Source expression `max(0.0, min(1.0, x))` from `compute_profile_confidence`. -/
def clamp01 (q : ℚ) : ℚ := max 0 (min 1 q)

/-- Python truthiness of an optional string (`None` and `""` are falsy). -/
def truthy : Option String → Bool
  | none => false
  | some s => s ≠ ""

/-! ## Data model (`qa_agent.py` record shape) -/

/-- A scalar enrichment field: `{value, confidence, source}`. -/
structure FieldValueS where
  value : Option String
  confidence : Option ℚ
  source : Option String
deriving DecidableEq

/-- A list-valued enrichment field (`services`, `affiliations`); a missing or
`null` value list is modelled as `[]`. -/
structure FieldValueL where
  value : List String
  confidence : Option ℚ
  source : Option String
deriving DecidableEq

/-- The `enrichment` block attached by the enrichment agent. -/
structure Enrichment where
  education : Option FieldValueS
  specialty : Option FieldValueS
  services : Option FieldValueL
  affiliations : Option FieldValueL
deriving DecidableEq

/-- The `confidence` block written by the validation agent. -/
structure ConfidenceBlock where
  identity : Option ℚ
  address : Option ℚ
  phone : Option ℚ
deriving DecidableEq

/-- The seven named component scores of `compute_profile_confidence`. -/
structure ComponentScores where
  identity : ℚ
  address : ℚ
  phone : ℚ
  specialty : ℚ
  education : ℚ
  services : ℚ
  affiliations : ℚ
deriving DecidableEq

/-- Output shape of `_enrichment_highlights`. -/
structure EnrichmentHighlights where
  education_value : Option String
  education_confidence : Option ℚ
  education_source : Option String
  specialty_value : Option String
  specialty_confidence : Option ℚ
  specialty_source : Option String
  services_sample : List String
  services_count : Nat
  services_confidence : Option ℚ
  affiliations_sample : List String
  affiliations_count : Nat
  affiliations_confidence : Option ℚ
deriving DecidableEq

/-- The values interpolated into the one-line `description` f-string of `decide`. -/
structure Description where
  provider_id : String
  name : String
  decision : String
  score : ℚ
  identity_status : String
  npi : String
deriving DecidableEq

/-- The `explainable` summary dictionary built in `decide`. -/
structure Explainable where
  provider_id : String
  name : String
  npi : String
  identity_status : String
  address : Option String
  phone : Option String
  profile_confidence : ℚ
  component_scores : ComponentScores
  top_reasons : List String
  enrichment_highlights : EnrichmentHighlights
deriving DecidableEq

/-- The `qa` block attached to a record by `decide`. -/
structure QAResult where
  decision : String
  profile_confidence : ℚ
  component_scores : ComponentScores
  reasons : List String
  description : Description
  explainable_summary : Explainable
deriving DecidableEq

/-- A pipeline record as consumed and produced by the QA agent. -/
structure Rec where
  provider_id : Option String
  name : Option String
  npi : Option String
  identity_status : Option String
  address : Option String
  phone : Option String
  specialty : Option String
  confidence : Option ConfidenceBlock
  enrichment : Option Enrichment
  qa : Option QAResult
deriving DecidableEq

/-! ## Confidence scorer (`qa_agent.compute_profile_confidence`) -/

/-- Threshold `TH_AUTO = 0.90` from `qa_agent.py`. -/
def TH_AUTO : ℚ := 0.90

/-- Threshold `TH_REVIEW = 0.60` from `qa_agent.py`. -/
def TH_REVIEW : ℚ := 0.60

/-- The fixed `weights` dictionary, in insertion order. -/
def weights : List (String × ℚ) :=
  [("identity", 0.40), ("address", 0.15), ("phone", 0.10), ("specialty", 0.10),
   ("education", 0.05), ("services", 0.10), ("affiliations", 0.10)]

/-- Lookup `components[k]` for the seven named keys. -/
def componentValue (c : ComponentScores) : String → ℚ
  | "identity" => c.identity
  | "address" => c.address
  | "phone" => c.phone
  | "specialty" => c.specialty
  | "education" => c.education
  | "services" => c.services
  | "affiliations" => c.affiliations
  | _ => 0

/-- Source expression `sum(components[k] * weights[k] for k in weights)`. -/
def weightedScore (c : ComponentScores) : ℚ :=
  (weights.map (fun kv => componentValue c kv.1 * kv.2)).sum

/-- Accessor `_get_conf(rec, ["confidence","identity"], 0.0)`. -/
def confIdentity (r : Rec) : ℚ := ((r.confidence.bind ConfidenceBlock.identity).getD 0)

/-- Accessor `_get_conf(rec, ["confidence","address"], 0.0)`. -/
def confAddress (r : Rec) : ℚ := ((r.confidence.bind ConfidenceBlock.address).getD 0)

/-- Accessor `_get_conf(rec, ["confidence","phone"], 0.0)`. -/
def confPhone (r : Rec) : ℚ := ((r.confidence.bind ConfidenceBlock.phone).getD 0)

/-- The enrichment `specialty` field of a record, when present. -/
def enrichSpecialty (r : Rec) : Option FieldValueS := r.enrichment.bind Enrichment.specialty

/-- Accessor `_get_conf(rec, ["enrichment","specialty","confidence"], 0.0)`. -/
def enrichSpecConf (r : Rec) : ℚ := (((enrichSpecialty r).bind FieldValueS.confidence).getD 0)

/-- Accessor `_get_conf(rec, ["enrichment","education","confidence"], 0.0)`. -/
def enrichEduConf (r : Rec) : ℚ :=
  (((r.enrichment.bind Enrichment.education).bind FieldValueS.confidence).getD 0)

/-- Accessor `_get_conf(rec, ["enrichment","services","confidence"], 0.0)`. -/
def enrichServConf (r : Rec) : ℚ :=
  (((r.enrichment.bind Enrichment.services).bind FieldValueL.confidence).getD 0)

/-- Accessor `_get_conf(rec, ["enrichment","affiliations","confidence"], 0.0)`. -/
def enrichAffConf (r : Rec) : ℚ :=
  (((r.enrichment.bind Enrichment.affiliations).bind FieldValueL.confidence).getD 0)

/-- The base specialty confidence: `0.6` when the resolved specialty is a
non-empty string whose stripped lower-casing is not `"unknown"`. -/
def specBase (r : Rec) : ℚ :=
  match r.specialty with
  | some s => if s ≠ "" ∧ s.trim.toLower ≠ "unknown" then 0.6 else 0
  | none => 0

/-- Embeds `qa_agent.compute_profile_confidence`: returns
`(profile_confidence, component_scores)`. -/
def compute_profile_confidence (r : Rec) : ℚ × ComponentScores :=
  let identity := confIdentity r
  let address := confAddress r
  let phone := confPhone r
  let spec_conf := max (specBase r) (enrichSpecConf r)
  let edu_conf := enrichEduConf r
  let services_conf := enrichServConf r
  let aff_conf := enrichAffConf r
  let components : ComponentScores :=
    { identity := round3 identity
      address := round3 address
      phone := round3 phone
      specialty := round3 spec_conf
      education := round3 edu_conf
      services := round3 services_conf
      affiliations := round3 aff_conf }
  let score := weightedScore components
  (round3 (clamp01 score), components)

/-! ## Reason generator (`qa_agent.generate_reasons`) -/

/-- The enrichment `services` value list (`[]` when absent). -/
def servicesList (r : Rec) : List String :=
  (((r.enrichment.bind Enrichment.services).map FieldValueL.value).getD [])

/-- The enrichment `affiliations` value list (`[]` when absent). -/
def affiliationsList (r : Rec) : List String :=
  (((r.enrichment.bind Enrichment.affiliations).map FieldValueL.value).getD [])

/-- Embeds `qa_agent.generate_reasons`. -/
def generate_reasons (r : Rec) (c : ComponentScores) : List String :=
  let identity_status := r.identity_status.getD ""
  (if identity_status = "NPI_MISSING" then ["missing_npi"]
   else if identity_status = "NPI_PROVIDED_UNVERIFIED" then ["npi_unverified"]
   else if c.identity < 0.7 then ["low_identity_confidence"] else [])
  ++ (if c.address < 0.6 then ["low_address_confidence"] else [])
  ++ (if c.phone < 0.5 then ["low_phone_confidence"] else [])
  ++ (let spec_val := (r.specialty.getD "").toLower
      if (spec_val = "unknown" ∨ spec_val = "") ∧ c.specialty < 0.5
      then ["missing_specialty"] else [])
  ++ (if c.education < 0.4 then ["low_education_info"] else [])
  ++ (let services := servicesList r
      if services = [] then ["no_services_listed"]
      else if c.services < 0.5 then ["low_services_confidence"] else [])
  ++ (let affiliations := affiliationsList r
      if affiliations = [] ∧ c.affiliations < 0.5 then ["no_affiliations"] else [])

/-! ## Decision router (`qa_agent.decide`) -/

/-- Embeds `_short_list(items, limit=3)`. -/
def _short_list (items : List String) : List String := items.take 3

/-- Embeds `qa_agent._enrichment_highlights`. -/
def _enrichment_highlights (r : Rec) : EnrichmentHighlights :=
  let edu := r.enrichment.bind Enrichment.education
  let spec := enrichSpecialty r
  let serv := r.enrichment.bind Enrichment.services
  let aff := r.enrichment.bind Enrichment.affiliations
  { education_value := edu.bind FieldValueS.value
    education_confidence := edu.bind FieldValueS.confidence
    education_source := edu.bind FieldValueS.source
    specialty_value := spec.bind FieldValueS.value
    specialty_confidence := spec.bind FieldValueS.confidence
    specialty_source := spec.bind FieldValueS.source
    services_sample := _short_list ((serv.map FieldValueL.value).getD [])
    services_count := ((serv.map FieldValueL.value).getD []).length
    services_confidence := serv.bind FieldValueL.confidence
    affiliations_sample := _short_list ((aff.map FieldValueL.value).getD [])
    affiliations_count := ((aff.map FieldValueL.value).getD []).length
    affiliations_confidence := aff.bind FieldValueL.confidence }

/-- The threshold ladder applied to a score: `AUTO` / `REVIEW` / `HOLD`. -/
def route (score : ℚ) : String :=
  if TH_AUTO ≤ score then "AUTO"
  else if TH_REVIEW ≤ score then "REVIEW"
  else "HOLD"

/-- Embeds `qa_agent.decide`: attaches the `qa` block to the record. -/
def decide (r : Rec) : Rec :=
  let sc := compute_profile_confidence r
  let score := sc.1
  let components := sc.2
  let reasons := generate_reasons r components
  let decision :=
    if TH_AUTO ≤ score then "AUTO"
    else if TH_REVIEW ≤ score then "REVIEW"
    else "HOLD"
  let provider_id := r.provider_id.getD "UNKNOWN"
  let name := r.name.getD "UNKNOWN"
  let npi := if truthy r.npi then r.npi.getD "" else "NPI_NOT_PROVIDED"
  let identity_status := r.identity_status.getD "UNKNOWN"
  let description : Description :=
    { provider_id := provider_id, name := name, decision := decision,
      score := score, identity_status := identity_status, npi := npi }
  let explainable : Explainable :=
    { provider_id := provider_id
      name := name
      npi := npi
      identity_status := identity_status
      address := r.address
      phone := r.phone
      profile_confidence := score
      component_scores := components
      top_reasons := reasons
      enrichment_highlights := _enrichment_highlights r }
  let qaBlock : QAResult :=
    { decision := decision
      profile_confidence := score
      component_scores := components
      reasons := reasons
      description := description
      explainable_summary := explainable }
  { r with qa := some qaBlock }

/-- The decision published on the `qa` block of a record. -/
def qaDecision (r : Rec) : Option String := r.qa.map QAResult.decision

/-- The profile confidence published on the `qa` block of a record. -/
def qaConf (r : Rec) : Option ℚ := r.qa.map QAResult.profile_confidence

/-! ## Field reconciler (`validation_agent.py`) -/

/-- Embeds `validation_agent.calculate_confidence`; the three values are optional
strings, absent or empty meaning "not usable" (Python truthiness). -/
def calculate_confidence (npi_val google_val csv_val : Option String)
    (has_npi : Bool) : ℚ :=
  if truthy npi_val && truthy google_val && truthy csv_val then
    if npi_val == google_val && google_val == csv_val then 1.0
    else if npi_val == google_val then (if has_npi then 0.9 else 0.75)
    else if google_val == csv_val then (if has_npi then 0.85 else 0.7)
    else 0.6
  else if truthy npi_val && truthy google_val then (if has_npi then 0.85 else 0.7)
  else if truthy google_val then 0.7
  else if truthy npi_val then 0.75
  else 0.4

/-- The `phonenumbers` collaborator: `parseE164 s` is the E.164 formatting of
`s` when `s` parses as a valid number, `none` when parsing fails, raises, or
the number is invalid. -/
structure PhoneLib where
  parseE164 : String → Option String

/-- Embeds `validation_agent.normalize_phone` (default region fixed to `"US"` by the
caller and absorbed into the collaborator model). -/
def normalize_phone (lib : PhoneLib) : Option String → Option String
  | none => none
  | some p =>
    if p = "" then none
    else
      match lib.parseE164 p with
      | some e164 => some e164
      | none => some p

/-- The mapped registry response built from a fetched NPPES record
(`npi_data` in `validate_providers`). -/
structure NpiData where
  name : Option String
  address : Option String
  phone : Option String
  specialty : Option String
deriving DecidableEq

/-- Result shape of the `verify_address` collaborator. -/
structure GoogleAddress where
  formatted_address : String
deriving DecidableEq

/-- Result shape of the `find_place` collaborator. -/
structure GooglePlace where
  phone : Option String
deriving DecidableEq

/-- One input CSV row of `validate_providers`. -/
structure InputRow where
  provider_id : Option String
  full_name : Option String
  phone : Option String
  address : Option String
  city : Option String
  state : Option String
  npi : Option String
deriving DecidableEq

/-- Source condition `npi and npi.strip()`: an identifier was supplied on the row. -/
def npiSupplied (row : InputRow) : Bool :=
  match row.npi with
  | none => false
  | some s => s ≠ "" && s.trim ≠ ""

/-- The validation record built for one row (steps 4–6 of
`validate_providers`), before being appended to the output list. -/
structure ValidatedRecord where
  provider_id : Option String
  npi : Option String
  name : Option String
  address : Option String
  phone : Option String
  specialty : Option String
  address_conf : ℚ
  phone_conf : ℚ
  identity_conf : ℚ
  sources_npi : Bool
  sources_google_address : Bool
  sources_google_place : Bool
  identity_status : String
deriving DecidableEq

/-- The per-row body of `validation_agent.validate_providers`, with the three
collaborators (registry fetch, address verification, place lookup) and the
phone library as parameters; a collaborator that raises or returns nothing is
`none`. -/
def validate_row (fetchNpi : String → Option NpiData)
    (verify_address : Option String → Option GoogleAddress)
    (find_place : Option String → Option String → Option GooglePlace)
    (lib : PhoneLib) (row : InputRow) : ValidatedRecord :=
  let npi_data : Option NpiData :=
    if npiSupplied row then fetchNpi ((row.npi.getD "").trim) else none
  let has_npi := npi_data.isSome
  let google_address_data := verify_address row.address
  let google_place_data := find_place row.full_name row.city
  let final_name : Option String :=
    match npi_data with
    | some d => d.name
    | none => row.full_name
  let final_address : Option String :=
    match google_address_data with
    | some g => some g.formatted_address
    | none => match npi_data with
      | some d => d.address
      | none => row.address
  let final_phone_raw : Option String :=
    match google_place_data with
    | some g =>
        if truthy g.phone then g.phone
        else match npi_data with
          | some d => d.phone
          | none => row.phone
    | none => match npi_data with
      | some d => d.phone
      | none => row.phone
  let final_phone := normalize_phone lib final_phone_raw
  let final_specialty : Option String :=
    match npi_data with
    | some d => d.specialty
    | none => some "Unknown"
  let address_conf := calculate_confidence (npi_data.bind NpiData.address)
    (google_address_data.map GoogleAddress.formatted_address) row.address has_npi
  let phone_conf := calculate_confidence (npi_data.bind NpiData.phone)
    (google_place_data.bind GooglePlace.phone) row.phone has_npi
  let identity_conf : ℚ := if has_npi then 0.9 else 0.6
  { provider_id := row.provider_id
    npi := if npiSupplied row then row.npi else none
    name := final_name
    address := final_address
    phone := final_phone
    specialty := final_specialty
    address_conf := address_conf
    phone_conf := phone_conf
    identity_conf := identity_conf
    sources_npi := npi_data.isSome
    sources_google_address := google_address_data.isSome
    sources_google_place := google_place_data.isSome
    identity_status := if has_npi then "NPI_VERIFIED" else "NPI_MISSING" }

/-! ## Versioned store (`directory_agent.py`) -/

/-- One row of the `versions` table (the wall-clock `version_ts` is not
modelled). -/
structure VersionRow where
  provider_id : String
  record_json : Rec
  change_summary : String
deriving DecidableEq

/-- One row of the `providers` table, keyed by `provider_id`
(`last_updated` is not modelled). -/
structure ProviderRow where
  provider_id : String
  name : String
  npi : String
  identity_status : String
  address : String
  phone : String
  specialty : String
  profile_confidence : ℚ
  decision : String
  latest_json : Rec
deriving DecidableEq

/-- The SQLite database state: the `providers` and `versions` tables. -/
structure DB where
  providers : List ProviderRow
  versions : List VersionRow
deriving DecidableEq

/-- Semantics of `INSERT OR REPLACE` on the `providers` primary key. -/
def insertOrReplace (rows : List ProviderRow) (row : ProviderRow) : List ProviderRow :=
  if rows.any (fun r => r.provider_id == row.provider_id) then
    rows.map (fun r => if r.provider_id == row.provider_id then row else r)
  else rows ++ [row]

/-- Embeds `directory_agent._get_change_summary`; `fmt` models the `"%.2f"`
float formatting used inside the confidence message. -/
def _get_change_summary (fmt : ℚ → String) (old_rec : Option Rec) (new_rec : Rec) : String :=
  match old_rec with
  | none => "Initial record"
  | some o =>
    let old_conf := (o.qa.map QAResult.profile_confidence).getD 0
    let new_conf := (new_rec.qa.map QAResult.profile_confidence).getD 0
    let old_dec := (o.qa.map QAResult.decision).getD ""
    let new_dec := (new_rec.qa.map QAResult.decision).getD ""
    let changes : List String :=
      (if 0.05 < |old_conf - new_conf|
       then ["confidence " ++ fmt old_conf ++ "→" ++ fmt new_conf] else [])
      ++ (if old_dec ≠ new_dec then ["decision " ++ old_dec ++ "→" ++ new_dec] else [])
      ++ (if o.address ≠ new_rec.address then ["address updated"] else [])
      ++ (if o.phone ≠ new_rec.phone then ["phone updated"] else [])
      ++ (if o.specialty ≠ new_rec.specialty then ["specialty updated"] else [])
    if changes = [] then "No significant changes"
    else String.intercalate "; " changes

/-- The `specialty` column extraction in `_upsert_provider`:
`enrichment.specialty.value or record.specialty or "Unknown"`. -/
def upsertSpecialty (record : Rec) : String :=
  let e := (enrichSpecialty record).bind FieldValueS.value
  if truthy e then e.getD ""
  else if truthy record.specialty then record.specialty.getD ""
  else "Unknown"

/-- Embeds `directory_agent._upsert_provider`: replaces the canonical `providers` row
and appends one `versions` row, in one transaction. -/
def _upsert_provider (fmt : ℚ → String) (db : DB) (provider_id : String)
    (record : Rec) : DB :=
  let old_rec : Option Rec :=
    (db.providers.find? (fun pr => pr.provider_id == provider_id)).map ProviderRow.latest_json
  let change_summary := _get_change_summary fmt old_rec record
  let row : ProviderRow :=
    { provider_id := provider_id
      name := record.name.getD ""
      npi := record.npi.getD ""
      identity_status := record.identity_status.getD ""
      address := record.address.getD ""
      phone := record.phone.getD ""
      specialty := upsertSpecialty record
      profile_confidence := (record.qa.map QAResult.profile_confidence).getD 0
      decision := (record.qa.map QAResult.decision).getD "HOLD"
      latest_json := record }
  { providers := insertOrReplace db.providers row
    versions := db.versions ++ [{ provider_id := provider_id, record_json := record,
                                  change_summary := change_summary }] }

/-- Repeated upserts of a sequence of snapshots for one provider. -/
def upsertAll (fmt : ℚ → String) (db : DB) (provider_id : String)
    (rs : List Rec) : DB :=
  rs.foldl (fun d r => _upsert_provider fmt d provider_id r) db

/-- Number of canonical rows stored for a provider. -/
def provCount (db : DB) (pid : String) : Nat :=
  (db.providers.filter (fun r => r.provider_id == pid)).length

/-- Number of version rows stored for a provider. -/
def verCount (db : DB) (pid : String) : Nat :=
  (db.versions.filter (fun v => v.provider_id == pid)).length

/-- The canonical snapshot stored for a provider. -/
def canonical (db : DB) (pid : String) : Option Rec :=
  (db.providers.find? (fun r => r.provider_id == pid)).map ProviderRow.latest_json

/-- The change summary of the oldest version row of a provider. -/
def firstSummary (db : DB) (pid : String) : Option String :=
  (db.versions.find? (fun v => v.provider_id == pid)).map VersionRow.change_summary

/-! ## Concrete test fixtures -/

/-- A confidence block with identity, address and phone all at `1.0`. -/
def cbOnes : ConfidenceBlock := { identity := some 1, address := some 1, phone := some 1 }

/-- A fully validated record with a resolved specialty and no enrichment:
component scores `identity=1, address=1, phone=1, specialty=0.6, rest 0`. -/
def recA : Rec :=
  { provider_id := some "P1"
    name := some "Dr Smith"
    npi := some "1234567890"
    identity_status := some "NPI_VERIFIED"
    address := some "1 Main St"
    phone := some "+15551234567"
    specialty := some "Cardiology"
    confidence := some cbOnes
    enrichment := none
    qa := none }

/-- Same record as `recA` except for the name (used to show that no field
other than the published score influences the decision). -/
def recB : Rec := { recA with name := some "Dr Jones" }

/-- An enrichment specialty field whose provenance is the registry with
confidence `0.8`. -/
def fvRegistrySpec : FieldValueS :=
  { value := some "Cardiology", confidence := some 0.8, source := some "NPI Registry" }

/-- An enrichment block carrying only the registry-sourced specialty. -/
def enrRegistry : Enrichment :=
  { education := none, specialty := some fvRegistrySpec, services := none,
    affiliations := none }

/-- A record satisfying both registry-uplift conditions of the specification:
`identity_status == NPI_VERIFIED` and a registry specialty at confidence
`0.8 ≥ 0.70`. -/
def recU : Rec := { recA with enrichment := some enrRegistry }

/-- A record carrying an out-of-range identity confidence of `2.0`. -/
def recOut : Rec :=
  { recA with confidence := some { identity := some 2, address := some 1, phone := some 1 } }

/-- An input row that supplies an identifier. -/
def rowN : InputRow :=
  { provider_id := some "P9"
    full_name := some "Dr X"
    phone := some "555"
    address := some "2 Oak Ave"
    city := some "Springfield"
    state := some "IL"
    npi := some "9999999999" }

/-- A phone library under which nothing parses as a valid number. -/
def libNone : PhoneLib := { parseE164 := fun _ => none }

/-- A phone library that recognises exactly one number. -/
def libOne : PhoneLib :=
  { parseE164 := fun s => if s = "5551234567" then some "+15551234567" else none }

/-- A trivial float formatter for instantiating the store. -/
def fmt0 : ℚ → String := fun _ => ""

/-- The empty database. -/
def db0 : DB := { providers := [], versions := [] }

/-! ## Rounding and clamping lemmas -/

/-- The executable `Rat.floor` agrees with the `FloorRing` floor. -/
lemma ratFloor_eq_floor (q : ℚ) : q.floor = ⌊q⌋ := by
  rw [Rat.floor_def, Rat.floor_def']

/-- Rounding half to even never goes below an integer lower bound. -/
lemma le_roundHalfEven (n : ℤ) (q : ℚ) (h : (n : ℚ) ≤ q) : n ≤ roundHalfEven q := by
  have hf : n ≤ q.floor := by
    rw [ratFloor_eq_floor]
    exact Int.le_floor.mpr h
  unfold roundHalfEven
  split_ifs <;> omega

/-- Rounding half to even never exceeds an integer upper bound. -/
lemma roundHalfEven_le (n : ℤ) (q : ℚ) (h : q ≤ (n : ℚ)) : roundHalfEven q ≤ n := by
  have hf : q.floor ≤ n := by
    rw [ratFloor_eq_floor]
    have := Int.floor_mono h
    simpa using this
  have hfr : (q.floor : ℚ) ≤ q := by
    rw [ratFloor_eq_floor]
    exact Int.floor_le q
  unfold roundHalfEven
  split_ifs with h1 h2 h3
  · exact hf
  · rcases lt_or_eq_of_le hf with hlt | heq
    · omega
    · exfalso
      have hq0 : q - (q.floor : ℚ) ≤ 0 := by
        rw [heq]
        linarith
      linarith
  · exact hf
  · rcases lt_or_eq_of_le hf with hlt | heq
    · omega
    · exfalso
      have hge : (1 : ℚ)/2 ≤ q - q.floor := le_of_not_lt h1
      have hq0 : q - (q.floor : ℚ) ≤ 0 := by
        rw [heq]
        linarith
      linarith

/-- Rounding to three decimals preserves non-negativity. -/
lemma round3_nonneg (q : ℚ) (h : 0 ≤ q) : 0 ≤ round3 q := by
  unfold round3
  have h0 : (0 : ℤ) ≤ roundHalfEven (q * 1000) := by
    apply le_roundHalfEven
    push_cast
    linarith
  have h1 : (0 : ℚ) ≤ (roundHalfEven (q * 1000) : ℚ) := by exact_mod_cast h0
  linarith

/-- Rounding to three decimals preserves the upper bound `1`. -/
lemma round3_le_one (q : ℚ) (h : q ≤ 1) : round3 q ≤ 1 := by
  unfold round3
  have h0 : roundHalfEven (q * 1000) ≤ (1000 : ℤ) := by
    apply roundHalfEven_le
    push_cast
    linarith
  have h1 : (roundHalfEven (q * 1000) : ℚ) ≤ (1000 : ℚ) := by exact_mod_cast h0
  linarith

/-- The clamp always lands in `[0, 1]`. -/
lemma clamp01_mem (q : ℚ) : 0 ≤ clamp01 q ∧ clamp01 q ≤ 1 := by
  unfold clamp01
  constructor
  · exact le_max_left 0 _
  · apply max_le
    · norm_num
    · exact min_le_left 1 q

/-- The published profile confidence is exactly the computed score. -/
lemma qaConf_decide (r : Rec) :
    qaConf (EY.decide r) = some ((compute_profile_confidence r).1) := rfl

/-- The published decision is the threshold ladder applied to the score. -/
lemma qaDecision_decide (r : Rec) :
    qaDecision (EY.decide r) = some (route ((compute_profile_confidence r).1)) := rfl

/-- The dictionary-driven weighted sum, written out. -/
lemma weightedScore_expand (c : ComponentScores) :
    weightedScore c =
      0.40 * c.identity + 0.15 * c.address + 0.10 * c.phone + 0.10 * c.specialty
        + 0.05 * c.education + 0.10 * c.services + 0.10 * c.affiliations := by
  simp [weightedScore, weights, componentValue]
  ring

/-- The base specialty confidence is either `0` or `0.6`. -/
lemma specBase_cases (r : Rec) : specBase r = 0 ∨ specBase r = 0.6 := by
  unfold specBase
  rcases r.specialty with _ | s
  · exact Or.inl rfl
  · simp only []
    by_cases h : s ≠ "" ∧ s.trim.toLower ≠ "unknown"
    · simp [if_pos h]
    · simp [if_neg h]

/-! ## Claim theorems -/

/-- C1: for every enriched record, the computed profile confidence equals the
weighted sum of the seven component scores with the fixed weights (identity
0.40, address 0.15, phone 0.10, specialty 0.10, education 0.05, services 0.10,
affiliations 0.10, summing to exactly 1), clamped to `[0,1]` and rounded to 3
decimals; the specialty component is the maximum of the 0.6 base (present,
non-"Unknown" resolved specialty) and the enrichment specialty confidence. -/
theorem profile_confidence_weighted_formula (r : Rec) :
    (weights.map Prod.snd).sum = 1 ∧
    (compute_profile_confidence r).2 =
      { identity := round3 (confIdentity r)
        address := round3 (confAddress r)
        phone := round3 (confPhone r)
        specialty := round3 (max (specBase r) (enrichSpecConf r))
        education := round3 (enrichEduConf r)
        services := round3 (enrichServConf r)
        affiliations := round3 (enrichAffConf r) } ∧
    (compute_profile_confidence r).1 =
      round3 (clamp01
        (0.40 * (compute_profile_confidence r).2.identity
          + 0.15 * (compute_profile_confidence r).2.address
          + 0.10 * (compute_profile_confidence r).2.phone
          + 0.10 * (compute_profile_confidence r).2.specialty
          + 0.05 * (compute_profile_confidence r).2.education
          + 0.10 * (compute_profile_confidence r).2.services
          + 0.10 * (compute_profile_confidence r).2.affiliations)) := by
  refine ⟨by norm_num [weights], rfl, ?_⟩
  rw [show (compute_profile_confidence r).1
      = round3 (clamp01 (weightedScore (compute_profile_confidence r).2)) from rfl,
    weightedScore_expand]

/-- C2: the routing decision is a pure function of the profile confidence and
the two thresholds (`TH_AUTO = 0.90`, `TH_REVIEW = 0.60`): `AUTO` when the
score reaches `TH_AUTO`, else `REVIEW` when it reaches `TH_REVIEW`, else
`HOLD`; two records with equal scores always receive the same decision, so no
other part of the record influences it. -/
theorem decision_pure_of_score :
    TH_AUTO = 0.90 ∧ TH_REVIEW = 0.60 ∧
    (∀ s : ℚ, route s =
      if TH_AUTO ≤ s then "AUTO" else if TH_REVIEW ≤ s then "REVIEW" else "HOLD") ∧
    (∀ r : Rec, qaDecision (EY.decide r) = some (route ((compute_profile_confidence r).1))) ∧
    (∀ r₁ r₂ : Rec,
      (compute_profile_confidence r₁).1 = (compute_profile_confidence r₂).1 →
      qaDecision (EY.decide r₁) = qaDecision (EY.decide r₂)) := by
  refine ⟨rfl, rfl, fun s => rfl, fun r => qaDecision_decide r, fun r₁ r₂ h => ?_⟩
  rw [qaDecision_decide, qaDecision_decide, h]

/-- C2 witness: two concrete records differing only in the name receive the
same decision because their scores are equal. -/
theorem decision_pure_of_score_witness :
    qaDecision (EY.decide recA) = qaDecision (EY.decide recB) :=
  decision_pure_of_score.2.2.2.2 recA recB (by with_unfolding_all decide)

/-- C7 counterexample: at the concrete record `recA` the component scores are
exactly the ones of Scenario A (identity 1, address 1, phone 1, specialty 0.6,
rest 0), yet the computed profile confidence is `0.71`, not `0.95`, and the
decision is `REVIEW`, not `AUTO`. -/
theorem scenario_a_cex :
    (compute_profile_confidence recA).2 =
      ({ identity := 1, address := 1, phone := 1, specialty := 0.6,
         education := 0, services := 0, affiliations := 0 } : ComponentScores) ∧
    qaConf (EY.decide recA) = some 0.71 ∧
    qaDecision (EY.decide recA) = some "REVIEW" ∧
    (0.71 : ℚ) ≠ 0.95 ∧ "REVIEW" ≠ "AUTO" := by
  refine ⟨by with_unfolding_all decide, by with_unfolding_all decide, by with_unfolding_all decide, by with_unfolding_all decide, by with_unfolding_all decide⟩

/-- C7 amended: with component scores identity 1, address 1, phone 1,
specialty 0.6 and the rest 0, the computed profile confidence is `0.71`
(`0.40 + 0.15 + 0.10 + 0.06`) and the decision is `REVIEW`. -/
theorem scenario_a_amended (r : Rec)
    (h : (compute_profile_confidence r).2 =
      ({ identity := 1, address := 1, phone := 1, specialty := 0.6,
         education := 0, services := 0, affiliations := 0 } : ComponentScores)) :
    qaConf (EY.decide r) = some 0.71 ∧ qaDecision (EY.decide r) = some "REVIEW" := by
  have hs : (compute_profile_confidence r).1 = 0.71 := by
    rw [show (compute_profile_confidence r).1
        = round3 (clamp01 (weightedScore (compute_profile_confidence r).2)) from rfl, h]
    with_unfolding_all decide
  constructor
  · rw [qaConf_decide, hs]
  · rw [qaDecision_decide, hs]
    with_unfolding_all decide

/-- C7 amended witness: the amended scenario evaluated at `recA`. -/
theorem scenario_a_amended_witness :
    qaConf (EY.decide recA) = some 0.71 ∧ qaDecision (EY.decide recA) = some "REVIEW" :=
  scenario_a_amended recA (by with_unfolding_all decide)

/-- C5 counterexample: `recU` satisfies both uplift conditions
(`NPI_VERIFIED`, registry specialty provenance at confidence `0.8 ≥ 0.70`),
yet the published confidence is the plain weighted score `0.73` and not the
uplifted `0.73 + 0.05`. -/
theorem registry_uplift_cex :
    recU.identity_status = some "NPI_VERIFIED" ∧
    (enrichSpecialty recU).bind FieldValueS.source = some "NPI Registry" ∧
    (0.70 : ℚ) ≤ enrichSpecConf recU ∧
    qaConf (EY.decide recU) = some 0.73 ∧
    ¬ qaConf (EY.decide recU) = some (min 1 (0.73 + 0.05)) := by
  refine ⟨by with_unfolding_all decide, by with_unfolding_all decide, by with_unfolding_all decide, by with_unfolding_all decide, by with_unfolding_all decide⟩

/-- C5 amended: no registry specialty uplift exists; even when the record has
`identity_status = NPI_VERIFIED` and a registry-sourced enrichment specialty
with confidence at least `0.70`, the published profile confidence is exactly
the clamped, rounded weighted sum, with no `0.05` added and no adjustment
record attached (the `qa` block has no adjustment field at all). -/
theorem no_registry_uplift (r : Rec)
    (_h1 : r.identity_status = some "NPI_VERIFIED")
    (_h2 : (enrichSpecialty r).bind FieldValueS.source = some "NPI Registry")
    (_h3 : (0.70 : ℚ) ≤ enrichSpecConf r) :
    qaConf (EY.decide r) = some ((compute_profile_confidence r).1) :=
  qaConf_decide r

/-- C5 amended witness: the no-uplift fact evaluated at `recU`. -/
theorem no_registry_uplift_witness :
    qaConf (EY.decide recU) = some ((compute_profile_confidence recU).1) :=
  no_registry_uplift recU rfl rfl (by with_unfolding_all decide)

/-- C8 counterexample: a record carrying an identity confidence of `2.0`
produces the component score `2.0`, outside `[0,1]` — component scores are
rounded but never clamped. -/
theorem component_scores_unclamped_cex :
    (compute_profile_confidence recOut).2.identity = 2 ∧
    ¬ (compute_profile_confidence recOut).2.identity ≤ 1 := by
  refine ⟨by with_unfolding_all decide, by with_unfolding_all decide⟩

/-- C8 amended: the profile confidence always lies in `[0,1]`, for every
input record; each of the seven component scores lies in `[0,1]` provided
its own raw input confidence lies in `[0,1]` (they are rounded raw inputs,
not clamped). -/
theorem scores_bounded (r : Rec) :
    (0 ≤ (compute_profile_confidence r).1 ∧ (compute_profile_confidence r).1 ≤ 1) ∧
    ((0 ≤ confIdentity r ∧ confIdentity r ≤ 1) →
      0 ≤ (compute_profile_confidence r).2.identity ∧
        (compute_profile_confidence r).2.identity ≤ 1) ∧
    ((0 ≤ confAddress r ∧ confAddress r ≤ 1) →
      0 ≤ (compute_profile_confidence r).2.address ∧
        (compute_profile_confidence r).2.address ≤ 1) ∧
    ((0 ≤ confPhone r ∧ confPhone r ≤ 1) →
      0 ≤ (compute_profile_confidence r).2.phone ∧
        (compute_profile_confidence r).2.phone ≤ 1) ∧
    ((0 ≤ enrichSpecConf r ∧ enrichSpecConf r ≤ 1) →
      0 ≤ (compute_profile_confidence r).2.specialty ∧
        (compute_profile_confidence r).2.specialty ≤ 1) ∧
    ((0 ≤ enrichEduConf r ∧ enrichEduConf r ≤ 1) →
      0 ≤ (compute_profile_confidence r).2.education ∧
        (compute_profile_confidence r).2.education ≤ 1) ∧
    ((0 ≤ enrichServConf r ∧ enrichServConf r ≤ 1) →
      0 ≤ (compute_profile_confidence r).2.services ∧
        (compute_profile_confidence r).2.services ≤ 1) ∧
    ((0 ≤ enrichAffConf r ∧ enrichAffConf r ≤ 1) →
      0 ≤ (compute_profile_confidence r).2.affiliations ∧
        (compute_profile_confidence r).2.affiliations ≤ 1) := by
  have hcl := clamp01_mem (weightedScore (compute_profile_confidence r).2)
  refine ⟨⟨round3_nonneg _ hcl.1, round3_le_one _ hcl.2⟩,
    fun hid => ⟨round3_nonneg _ hid.1, round3_le_one _ hid.2⟩,
    fun had => ⟨round3_nonneg _ had.1, round3_le_one _ had.2⟩,
    fun hph => ⟨round3_nonneg _ hph.1, round3_le_one _ hph.2⟩,
    fun hsp => ?_,
    fun hed => ⟨round3_nonneg _ hed.1, round3_le_one _ hed.2⟩,
    fun hsv => ⟨round3_nonneg _ hsv.1, round3_le_one _ hsv.2⟩,
    fun haf => ⟨round3_nonneg _ haf.1, round3_le_one _ haf.2⟩⟩
  have hsb : 0 ≤ specBase r ∧ specBase r ≤ 1 := by
    rcases specBase_cases r with h | h <;> rw [h] <;> norm_num
  have hmax : 0 ≤ max (specBase r) (enrichSpecConf r)
      ∧ max (specBase r) (enrichSpecConf r) ≤ 1 :=
    ⟨le_trans hsb.1 (le_max_left _ _), max_le hsb.2 hsp.2⟩
  exact ⟨round3_nonneg _ hmax.1, round3_le_one _ hmax.2⟩

/-- C8 amended witness: the unconditional score bound applies even at
`recOut`, whose identity confidence is the out-of-range `2.0`; the component
bounds apply at `recA`, whose raw confidences all lie in `[0,1]`. -/
theorem scores_bounded_witness :
    (0 ≤ (compute_profile_confidence recOut).1 ∧
      (compute_profile_confidence recOut).1 ≤ 1) ∧
    (0 ≤ (compute_profile_confidence recA).2.identity ∧
      (compute_profile_confidence recA).2.identity ≤ 1) ∧
    (0 ≤ (compute_profile_confidence recA).2.address ∧
      (compute_profile_confidence recA).2.address ≤ 1) ∧
    (0 ≤ (compute_profile_confidence recA).2.phone ∧
      (compute_profile_confidence recA).2.phone ≤ 1) ∧
    (0 ≤ (compute_profile_confidence recA).2.specialty ∧
      (compute_profile_confidence recA).2.specialty ≤ 1) ∧
    (0 ≤ (compute_profile_confidence recA).2.education ∧
      (compute_profile_confidence recA).2.education ≤ 1) ∧
    (0 ≤ (compute_profile_confidence recA).2.services ∧
      (compute_profile_confidence recA).2.services ≤ 1) ∧
    (0 ≤ (compute_profile_confidence recA).2.affiliations ∧
      (compute_profile_confidence recA).2.affiliations ≤ 1) :=
  ⟨(scores_bounded recOut).1,
    (scores_bounded recA).2.1 (by with_unfolding_all decide),
    (scores_bounded recA).2.2.1 (by with_unfolding_all decide),
    (scores_bounded recA).2.2.2.1 (by with_unfolding_all decide),
    (scores_bounded recA).2.2.2.2.1 (by with_unfolding_all decide),
    (scores_bounded recA).2.2.2.2.2.1 (by with_unfolding_all decide),
    (scores_bounded recA).2.2.2.2.2.2.1 (by with_unfolding_all decide),
    (scores_bounded recA).2.2.2.2.2.2.2 (by with_unfolding_all decide)⟩

/-- C9 counterexample: the empty phone string is not passed through
unchanged — normalization maps it to `none`, discarding the input. -/
theorem normalize_phone_empty_cex :
    normalize_phone libNone (some "") = none ∧ (none : Option String) ≠ some "" := by
  refine ⟨rfl, by with_unfolding_all decide⟩

/-- C9 amended: for every non-empty phone input, normalization returns the
E.164 formatting when the library parses a valid number and otherwise returns
the input unchanged; an empty or missing input is normalized to `none`. -/
theorem normalize_phone_passthrough (lib : PhoneLib) (p : String) (hp : p ≠ "") :
    normalize_phone lib (some p) = some ((lib.parseE164 p).getD p) ∧
    normalize_phone lib none = none := by
  constructor
  · simp only [normalize_phone, if_neg hp]
    cases h : lib.parseE164 p <;> simp [h]
  · rfl

/-- C9 amended witness: one unparseable and one parseable concrete input. -/
theorem normalize_phone_passthrough_witness :
    normalize_phone libOne (some "abc") = some "abc" ∧
    normalize_phone libOne (some "5551234567") = some "+15551234567" := by
  constructor
  · rw [(normalize_phone_passthrough libOne "abc" (by with_unfolding_all decide)).1]
    with_unfolding_all decide
  · rw [(normalize_phone_passthrough libOne "5551234567" (by with_unfolding_all decide)).1]
    with_unfolding_all decide

/-- C10: the scoring/routing step returns the same record with only the `qa`
block set: every other field keeps its original value. -/
theorem decide_frame (r : Rec) :
    (EY.decide r).provider_id = r.provider_id ∧
    (EY.decide r).name = r.name ∧
    (EY.decide r).npi = r.npi ∧
    (EY.decide r).identity_status = r.identity_status ∧
    (EY.decide r).address = r.address ∧
    (EY.decide r).phone = r.phone ∧
    (EY.decide r).specialty = r.specialty ∧
    (EY.decide r).confidence = r.confidence ∧
    (EY.decide r).enrichment = r.enrichment ∧
    (EY.decide r).qa.isSome = true :=
  ⟨rfl, rfl, rfl, rfl, rfl, rfl, rfl, rfl, rfl, rfl⟩

/-- Evaluator for a tie-break table: rows top-down, first match wins. -/
def firstMatch : List (Bool × ℚ) → ℚ → ℚ
  | [], d => d
  | (c, v) :: rest, d => if c then v else firstMatch rest d

/-- Stated from the claim: the tie-break table as the specification writes it,
with the agreement rows 2 and 3 applying also when the third value is absent
("third differs or absent"). -/
def claimTable (n g c : Option String) (h : Bool) : ℚ :=
  firstMatch
    [ (truthy n && truthy g && truthy c && n == g && g == c, 1.0),
      (truthy n && truthy g && n == g && (!(truthy c) || !(g == c)), if h then 0.9 else 0.75),
      (truthy g && truthy c && g == c && (!(truthy n) || !(n == g)), if h then 0.85 else 0.7),
      (truthy n && truthy g && truthy c, 0.6),
      (truthy n && truthy g && !(truthy c), if h then 0.85 else 0.7),
      (truthy g && !(truthy n) && !(truthy c), 0.7),
      (truthy n && !(truthy g) && !(truthy c), 0.75) ] 0.4

/-- The tie-break table the code implements: the agreement rows apply only
when all three values are present; otherwise presence alone decides. -/
def amendedTable (n g c : Option String) (h : Bool) : ℚ :=
  firstMatch
    [ (truthy n && truthy g && truthy c && n == g && g == c, 1.0),
      (truthy n && truthy g && truthy c && n == g, if h then 0.9 else 0.75),
      (truthy n && truthy g && truthy c && g == c, if h then 0.85 else 0.7),
      (truthy n && truthy g && truthy c, 0.6),
      (truthy n && truthy g, if h then 0.85 else 0.7),
      (truthy g, 0.7),
      (truthy n, 0.75) ] 0.4

/-- C4 counterexample: with registry and mapping equal and the caller value
absent, the claimed table gives `0.90` (row "registry == mapping, third
differs or absent") but the code returns `0.85` (its `0.90` row requires all
three values present). -/
theorem calculate_confidence_claim_table_cex :
    calculate_confidence (some "x") (some "x") none true = 0.85 ∧
    claimTable (some "x") (some "x") none true = 0.90 ∧
    (0.85 : ℚ) ≠ 0.90 := by
  refine ⟨by with_unfolding_all decide, by with_unfolding_all decide,
    by with_unfolding_all decide⟩

/-- C4 amended: the field-confidence function equals the corrected tie-break
table in which the 1.00/0.90/0.85/0.60 agreement rows require all three
values present, registry-and-mapping presence gives 0.85/0.70, mapping alone
(including mapping agreeing with caller, registry absent) gives 0.70,
registry alone gives 0.75, and anything else gives 0.40. -/
theorem calculate_confidence_table (n g c : Option String) (h : Bool) :
    calculate_confidence n g c h = amendedTable n g c h := by
  cases htn : truthy n <;> cases htg : truthy g <;> cases htc : truthy c <;>
    cases he1 : n == g <;> cases he2 : g == c <;>
      simp [calculate_confidence, amendedTable, firstMatch, htn, htg, htc, he1, he2]

/-- C3: the validation agent only ever assigns two identity statuses,
`NPI_VERIFIED` (registry lookup returned a record) and `NPI_MISSING`
(everything else); in particular a row that supplies an identifier whose
registry lookup returns nothing is labelled `NPI_MISSING`, not the
`NPI_PROVIDED_UNVERIFIED` the specification requires. -/
theorem identity_status_never_unverified :
    (∀ (f : String → Option NpiData) (g : Option String → Option GoogleAddress)
        (p : Option String → Option String → Option GooglePlace) (lib : PhoneLib)
        (row : InputRow),
      (validate_row f g p lib row).identity_status = "NPI_VERIFIED" ∨
      (validate_row f g p lib row).identity_status = "NPI_MISSING") ∧
    npiSupplied rowN = true ∧
    (validate_row (fun _ => none) (fun _ => none) (fun _ _ => none) libNone rowN).identity_status
      = "NPI_MISSING" := by
  refine ⟨fun f g p lib row => ?_, by with_unfolding_all decide,
    by with_unfolding_all decide⟩
  by_cases h : (if npiSupplied row then f ((row.npi.getD "").trim) else none).isSome
  · left
    simp [validate_row, h]
  · right
    simp [validate_row, h]

/-! ## Versioned store lemmas -/

/-- One upsert appends exactly one version row for the provider. -/
lemma verCount_upsert (fmt : ℚ → String) (db : DB) (pid : String) (r : Rec) :
    verCount (_upsert_provider fmt db pid r) pid = verCount db pid + 1 := by
  simp [verCount, _upsert_provider, List.filter_append]

/-- With no matching canonical row, the lookup returns nothing. -/
lemma canonical_eq_none (db : DB) (pid : String) (hp : provCount db pid = 0) :
    canonical db pid = none := by
  unfold provCount at hp
  have h0 := List.filter_eq_nil_iff.mp (List.length_eq_zero.mp hp)
  simp [canonical, List.find?_eq_none.mpr h0]

/-- Replacing the matching rows in place preserves the number of matches. -/
lemma filter_length_map_replace (rows : List ProviderRow) (row : ProviderRow)
    (pid : String) (hrow : row.provider_id = pid) :
    ((rows.map (fun r => if r.provider_id == row.provider_id then row else r)).filter
        (fun r => r.provider_id == pid)).length
      = (rows.filter (fun r => r.provider_id == pid)).length := by
  induction rows with
  | nil => rfl
  | cons a rows ih =>
    simp only [List.map_cons]
    by_cases ha : a.provider_id = row.provider_id
    · have h1 : (a.provider_id == row.provider_id) = true := beq_iff_eq.mpr ha
      have h2 : (a.provider_id == pid) = true := beq_iff_eq.mpr (by rw [ha, hrow])
      have h3 : (row.provider_id == pid) = true := beq_iff_eq.mpr hrow
      simp [List.filter_cons, h1, h2, h3, ih, -beq_iff_eq]
    · have h1 : (a.provider_id == row.provider_id) = false := by
        simp [ha]
      by_cases hap : a.provider_id = pid
      · have h2 : (a.provider_id == pid) = true := beq_iff_eq.mpr hap
        simp [List.filter_cons, h1, h2, ih, -beq_iff_eq]
      · have h2 : (a.provider_id == pid) = false := by
          simp [hap]
        simp [List.filter_cons, h1, h2, ih, -beq_iff_eq]

/-- After an in-place replacement, lookup by the key returns the new row. -/
lemma find?_map_replace (rows : List ProviderRow) (row : ProviderRow)
    (pid : String) (hrow : row.provider_id = pid)
    (hany : rows.any (fun r => r.provider_id == row.provider_id) = true) :
    (rows.map (fun r => if r.provider_id == row.provider_id then row else r)).find?
      (fun r => r.provider_id == pid) = some row := by
  induction rows with
  | nil => simp at hany
  | cons a rows ih =>
    simp only [List.map_cons]
    by_cases ha : a.provider_id = row.provider_id
    · have h1 : (a.provider_id == row.provider_id) = true := beq_iff_eq.mpr ha
      have h3 : (row.provider_id == pid) = true := beq_iff_eq.mpr hrow
      simp [h1, h3, -beq_iff_eq]
    · have h1 : (a.provider_id == row.provider_id) = false := by
        simp [ha]
      have h2 : (a.provider_id == pid) = false := by
        have : a.provider_id ≠ pid := fun hc => ha (hc.trans hrow.symm)
        simp [this]
      have hany2 : rows.any (fun r => r.provider_id == row.provider_id) = true := by
        simpa [h1, -beq_iff_eq] using hany
      simp [h1, h2, ih hany2, -beq_iff_eq]

/-- A positive match count is the same as a successful existence check. -/
lemma provCount_pos_of_any (db : DB) (pid : String)
    (hany : db.providers.any (fun r => r.provider_id == pid) = true) :
    0 < provCount db pid := by
  unfold provCount
  obtain ⟨x, hx, hpx⟩ := List.any_eq_true.mp hany
  have hmem : x ∈ db.providers.filter (fun r => r.provider_id == pid) :=
    List.mem_filter.mpr ⟨hx, hpx⟩
  exact List.length_pos.mpr (fun hnil => by simp [hnil] at hmem)

/-- After one upsert the canonical row is the new snapshot and is unique. -/
lemma upsert_canonical (fmt : ℚ → String) (db : DB) (pid : String) (r : Rec)
    (hle : provCount db pid ≤ 1) :
    canonical (_upsert_provider fmt db pid r) pid = some r ∧
    provCount (_upsert_provider fmt db pid r) pid = 1 := by
  by_cases hany : db.providers.any (fun pr => pr.provider_id == pid) = true
  · constructor
    · have hf := find?_map_replace db.providers
        { provider_id := pid
          name := r.name.getD ""
          npi := r.npi.getD ""
          identity_status := r.identity_status.getD ""
          address := r.address.getD ""
          phone := r.phone.getD ""
          specialty := upsertSpecialty r
          profile_confidence := (r.qa.map QAResult.profile_confidence).getD 0
          decision := (r.qa.map QAResult.decision).getD "HOLD"
          latest_json := r } pid rfl hany
      simp [canonical, _upsert_provider, insertOrReplace, hany, hf, -beq_iff_eq]
    · have hcount := filter_length_map_replace db.providers
        { provider_id := pid
          name := r.name.getD ""
          npi := r.npi.getD ""
          identity_status := r.identity_status.getD ""
          address := r.address.getD ""
          phone := r.phone.getD ""
          specialty := upsertSpecialty r
          profile_confidence := (r.qa.map QAResult.profile_confidence).getD 0
          decision := (r.qa.map QAResult.decision).getD "HOLD"
          latest_json := r } pid rfl
      have hpos := provCount_pos_of_any db pid hany
      have h1 : provCount db pid = 1 := by omega
      simp only [provCount, _upsert_provider, insertOrReplace, hany, if_true]
      unfold provCount at h1
      rw [hcount, h1]
  · have hnone : db.providers.find? (fun pr => pr.provider_id == pid) = none := by
      rw [List.find?_eq_none]
      intro x hx hpx
      exact (by simp [List.any_eq_true] at hany; exact hany x hx (beq_iff_eq.mp hpx))
    constructor
    · simp [canonical, _upsert_provider, insertOrReplace, hany, List.find?_append, hnone]
    · have hzero : (db.providers.filter (fun r => r.provider_id == pid)).length = 0 := by
        rw [List.length_eq_zero, List.filter_eq_nil_iff]
        intro x hx hpx
        exact (by simp [List.any_eq_true] at hany; exact hany x hx (beq_iff_eq.mp hpx))
      simp [provCount, _upsert_provider, insertOrReplace, hany, List.filter_append, hzero]

/-- An upsert never disturbs the oldest version row of a provider. -/
lemma firstSummary_upsert_preserved (fmt : ℚ → String) (db : DB) (pid : String)
    (r : Rec) (s : String) (h : firstSummary db pid = some s) :
    firstSummary (_upsert_provider fmt db pid r) pid = some s := by
  unfold firstSummary at h
  obtain ⟨w, hw, hws⟩ := Option.map_eq_some'.mp h
  simp [firstSummary, _upsert_provider, List.find?_append, hw, hws]

/-- The very first upsert for a provider records the summary
`"Initial record"`. -/
lemma firstSummary_first (fmt : ℚ → String) (db : DB) (pid : String) (r : Rec)
    (hp : provCount db pid = 0) (hv : verCount db pid = 0) :
    firstSummary (_upsert_provider fmt db pid r) pid = some "Initial record" := by
  have hvnone : db.versions.find? (fun v => v.provider_id == pid) = none := by
    rw [List.find?_eq_none]
    unfold verCount at hv
    have h0 := List.filter_eq_nil_iff.mp (List.length_eq_zero.mp hv)
    exact h0
  have hpnone : db.providers.find? (fun pr => pr.provider_id == pid) = none := by
    rw [List.find?_eq_none]
    unfold provCount at hp
    have h0 := List.filter_eq_nil_iff.mp (List.length_eq_zero.mp hp)
    exact h0
  simp [firstSummary, _upsert_provider, List.find?_append, hvnone, hpnone,
    _get_change_summary]

/-- The last element of a cons cell via `getLastD`. -/
lemma getLast?_cons_getLastD (a : Rec) (l : List Rec) :
    (a :: l).getLast? = some (l.getLastD a) := by
  induction l generalizing a with
  | nil => rfl
  | cons b l ih =>
    rw [List.getLast?_cons_cons, ih b, List.getLastD_cons]

/-- Invariant carried across repeated upserts: one canonical row tracking the
latest snapshot, one version row per upsert, and a stable oldest version. -/
lemma upsertAll_inv (fmt : ℚ → String) (pid : String) (rs : List Rec) :
    ∀ (db : DB) (r0 : Rec), provCount db pid = 1 → canonical db pid = some r0 →
      provCount (upsertAll fmt db pid rs) pid = 1 ∧
      canonical (upsertAll fmt db pid rs) pid = some (rs.getLastD r0) ∧
      verCount (upsertAll fmt db pid rs) pid = verCount db pid + rs.length ∧
      ∀ s, firstSummary db pid = some s →
        firstSummary (upsertAll fmt db pid rs) pid = some s := by
  induction rs with
  | nil =>
    intro db r0 h1 h2
    exact ⟨h1, by simpa [upsertAll] using h2, by simp [upsertAll], fun s hs => hs⟩
  | cons r rs ih =>
    intro db r0 h1 h2
    have hstep := upsert_canonical fmt db pid r (by omega)
    have hver := verCount_upsert fmt db pid r
    have hrec := ih (_upsert_provider fmt db pid r) r hstep.2 hstep.1
    have hfold : upsertAll fmt db pid (r :: rs)
        = upsertAll fmt (_upsert_provider fmt db pid r) pid rs := rfl
    refine ⟨by rw [hfold]; exact hrec.1, ?_, ?_, ?_⟩
    · rw [hfold, hrec.2.1]
      cases rs <;> simp [List.getLastD]
    · rw [hfold, hrec.2.2.1, hver, List.length_cons]
      omega
    · intro s hs
      rw [hfold]
      exact hrec.2.2.2 s (firstSummary_upsert_preserved fmt db pid r s hs)

/-- C6: starting from a store with no rows for a provider, N repeated upserts
produce exactly N version rows and exactly one canonical row that carries the
most recent snapshot; a version is appended unconditionally on every upsert
(also for identical snapshots), and the first change summary is the string
`"Initial record"`. -/
theorem versioned_store_upserts (fmt : ℚ → String) (db : DB) (pid : String)
    (rs : List Rec) (hp : provCount db pid = 0) (hv : verCount db pid = 0)
    (hne : rs ≠ []) :
    verCount (upsertAll fmt db pid rs) pid = rs.length ∧
    provCount (upsertAll fmt db pid rs) pid = 1 ∧
    canonical (upsertAll fmt db pid rs) pid = rs.getLast? ∧
    firstSummary (upsertAll fmt db pid rs) pid = some "Initial record" := by
  cases rs with
  | nil => exact absurd rfl hne
  | cons r rs =>
    have hstep := upsert_canonical fmt db pid r (by omega)
    have hfs := firstSummary_first fmt db pid r hp hv
    have hver := verCount_upsert fmt db pid r
    have hinv := upsertAll_inv fmt pid rs (_upsert_provider fmt db pid r) r hstep.2 hstep.1
    have hfold : upsertAll fmt db pid (r :: rs)
        = upsertAll fmt (_upsert_provider fmt db pid r) pid rs := rfl
    refine ⟨?_, ?_, ?_, ?_⟩
    · rw [hfold, hinv.2.2.1, hver, hv, List.length_cons]
      omega
    · rw [hfold]
      exact hinv.1
    · rw [hfold, hinv.2.1, getLast?_cons_getLastD]
    · rw [hfold]
      exact hinv.2.2.2 _ hfs

/-- C6 witness: two upserts of the same snapshot into the empty store yield
two version rows (the second one for an unchanged record), one canonical row
holding the snapshot, and an `"Initial record"` first summary. -/
theorem versioned_store_upserts_witness :
    verCount (upsertAll fmt0 db0 "P1" [recA, recA]) "P1" = 2 ∧
    provCount (upsertAll fmt0 db0 "P1" [recA, recA]) "P1" = 1 ∧
    canonical (upsertAll fmt0 db0 "P1" [recA, recA]) "P1" = [recA, recA].getLast? ∧
    firstSummary (upsertAll fmt0 db0 "P1" [recA, recA]) "P1" = some "Initial record" := by
  have h := versioned_store_upserts fmt0 db0 "P1" [recA, recA] rfl rfl (by simp)
  simpa using h

end EY
